import Mathlib

/-!
Shallow embedding of the authorization and notification-routing logic of the
IT helpdesk application (Express handlers in `server/server.js`, SQL schema in
`database.sql`, React bulk-delete loop in `UserManagement`).

Machine integers of the source are MySQL INTs holding AUTO_INCREMENT ids; they
are modelled as `Nat`.  Nullable columns are `Option Nat`.  MySQL ENUM columns
become inductive types listing exactly the schema's values.  JavaScript
truthiness of nullable ids (`if (userId)`, `userId || null`) is modelled by
`jsTruthy`, under which both `null`/`undefined` and `0` are falsy; truthiness
of strings is `jsStrTruthy` (the empty string is falsy).
-/

namespace Parc

/-- `role ENUM('admin', 'it_personnel', 'employee')` from the users table. -/
inductive Role
  | admin
  | it_personnel
  | employee
deriving DecidableEq, Repr

/-- `priority ENUM('Basse', 'Normale', 'Haute', 'Urgente')` from the tickets table. -/
inductive Priority
  | Basse
  | Normale
  | Haute
  | Urgente
deriving DecidableEq, Repr

/-- `status ENUM('Ouvert', 'En cours', 'Résolu', 'Fermé', 'Escaladé', 'En attente')`
from the tickets table. -/
inductive TicketStatus
  | Ouvert
  | EnCours
  | Resolu
  | Ferme
  | Escalade
  | EnAttente
deriving DecidableEq, Repr

/-- `status ENUM('Disponible', 'En utilisation', 'En panne', 'En maintenance', 'Retiré')`
from the equipment table. -/
inductive EquipmentStatus
  | Disponible
  | EnUtilisation
  | EnPanne
  | EnMaintenance
  | Retire
deriving DecidableEq, Repr

/-- `type ENUM('success', 'error', 'warning', 'info')` from the notifications table. -/
inductive NotificationType
  | success
  | error
  | warning
  | info
deriving DecidableEq, Repr

/-- The authenticated caller: `req.user` as decoded from the JWT by
`authenticateToken` (`{ id, role, ... }`). -/
structure Principal where
  id : Nat
  role : Role
deriving DecidableEq, Repr

/-- A row of the users table (columns relevant to the handlers modelled here). -/
structure User where
  id : Nat
  role : Role
  department_id : Option Nat
deriving DecidableEq, Repr

/-- A row of the tickets table (columns relevant to the handlers modelled here). -/
structure Ticket where
  id : Nat
  title : String
  description : String
  type : String
  priority : Priority
  status : TicketStatus
  created_by : Nat
  assigned_to : Option Nat
  equipment_id : Option Nat
  department_id : Option Nat
  target_department_id : Option Nat
deriving DecidableEq, Repr

/-- A row of the equipment table (columns the modelled handlers read or write;
`department_id` is never touched by them and is omitted). -/
structure Equipment where
  id : Nat
  name : String
  type : String
  brand : String
  model : String
  serial_number : String
  status : EquipmentStatus
  assigned_to_id : Option Nat
  location : String
  purchase_date : String
  warranty_expiry : String
  notes : String
deriving DecidableEq, Repr

/-- A row of the notifications table.  `read` defaults to false on INSERT. -/
structure Notification where
  user_id : Nat
  type : NotificationType
  title : String
  message : String
  read : Bool
deriving DecidableEq, Repr

/-- The relational store as seen by the handlers. -/
structure Db where
  users : List User
  equipment : List Equipment
  tickets : List Ticket
  notifications : List Notification
deriving DecidableEq, Repr

/-- An error response `res.status(code).json({ error: msg })`. -/
structure HttpError where
  status : Nat
  error : String
deriving DecidableEq, Repr

/-- JavaScript truthiness of a nullable numeric id: `null`/`undefined` and `0`
are falsy, every other number is truthy. -/
def jsTruthy : Option Nat → Bool
  | none => false
  | some n => n != 0

/-- JavaScript truthiness of a string: only the empty string is falsy (among
the string values the handlers receive). -/
def jsStrTruthy (s : String) : Bool := s != ""

/-! ## Notification persistence (`createNotificationsForUsers` and the inline loops)

Each `INSERT INTO notifications` may fail at the database; `ins` is the oracle
deciding which inserts succeed.  A failing insert raises, which aborts the rest
of the loop; the surrounding try/catch then swallows the error (only logging
it), so already-inserted rows remain and the caller never sees a failure. -/

/-- Sequential insertion of notification rows: on the first failing INSERT the
exception aborts the remaining iterations, leaving the rows inserted so far. -/
def insertNotifLoop (ins : Notification → Bool) (db : Db) : List Notification → Db
  | [] => db
  | n :: rest =>
      if ins n then
        insertNotifLoop ins { db with notifications := db.notifications ++ [n] } rest
      else
        db

/-- `createNotificationsForUsers(userIds, type, title, message)`: one row per
user id, inserted in a loop wrapped in try/catch; the function never throws. -/
def createNotificationsForUsers (ins : Notification → Bool) (userIds : List Nat)
    (ty : NotificationType) (title message : String) (db : Db) : Db :=
  insertNotifLoop ins db (userIds.map fun uid => ⟨uid, ty, title, message, false⟩)

/-- `SELECT id FROM users WHERE role IN ('admin','it_personnel')`. -/
def itAndAdminIds (db : Db) : List Nat :=
  (db.users.filter fun u => u.role == Role.admin || u.role == Role.it_personnel).map (·.id)

/-- `SELECT id FROM users WHERE role = 'admin'`. -/
def adminIds (db : Db) : List Nat :=
  (db.users.filter fun u => u.role == Role.admin).map (·.id)

/-! ## Ticket handlers operating on a single ticket row -/

/-- The row fetched by PUT `/api/tickets/:id/close`:
`SELECT id, title, status, created_by FROM tickets WHERE id = ?`.
The projection does not include `assigned_to`, so reading
`ticket.assigned_to` on the fetched row yields the JavaScript value
`undefined`, whatever is stored in the column; modelled as `none`. -/
def closeRowAssignedTo (_t : Ticket) : Option Nat := none

/-- PUT `/api/tickets/:id/close`, acting on the stored ticket `t` (the ticket
is assumed to exist; the 404 branch is not modelled).  Denies unless the
guard `req.user.role !== 'admin' && ticket.created_by !== req.user.id &&
ticket.assigned_to !== req.user.id` is falsified; otherwise sets
`status = 'Fermé'`. -/
def closeTicket (p : Principal) (t : Ticket) : Except HttpError Ticket :=
  if p.role ≠ Role.admin ∧ t.created_by ≠ p.id ∧ closeRowAssignedTo t ≠ some p.id then
    .error ⟨403, "You can only close tickets you created or are assigned to"⟩
  else
    .ok { t with status := TicketStatus.Ferme }

/-- PUT `/api/tickets/:id/assign`, acting on the stored ticket `t` with the
user roster `users` and the request body's `userId`.  When `userId` is truthy
the target user is looked up (`404` if absent) and rejected if an employee
(`403`); the UPDATE then sets `assigned_to = userId || null` and
`status = userId ? 'En cours' : 'Ouvert'`.  The handler performs no check on
the invoking principal's role. -/
def assignTicket (p : Principal) (users : List User) (t : Ticket)
    (userId : Option Nat) : Except HttpError Ticket :=
  let _ := p
  if jsTruthy userId then
    match users.find? (fun u => some u.id == userId) with
    | none => .error ⟨404, "User not found"⟩
    | some u =>
        if u.role = Role.employee then
          .error ⟨403, "Employees cannot be assigned to tickets"⟩
        else
          .ok { t with assigned_to := userId, status := TicketStatus.EnCours }
  else
    .ok { t with assigned_to := none, status := TicketStatus.Ouvert }

/-- The priority step of PUT `/api/tickets/:id/escalate`:
`Basse → Normale`, `Normale → Haute`, `Haute → Urgente`, anything else
(only `Urgente` remains in the ENUM) unchanged. -/
def escalate : Priority → Priority
  | .Basse => .Normale
  | .Normale => .Haute
  | .Haute => .Urgente
  | .Urgente => .Urgente

/-- PUT `/api/tickets/:id/escalate`, acting on the stored ticket `t`:
employees are denied; otherwise the UPDATE sets the stepped priority and
forces `status = 'Escaladé'`. -/
def escalateTicket (p : Principal) (t : Ticket) : Except HttpError Ticket :=
  if p.role = Role.employee then
    .error ⟨403, "Employees cannot escalate tickets"⟩
  else
    .ok { t with priority := escalate t.priority, status := TicketStatus.Escalade }

/-! ## User deletion -/

/-- DELETE `/api/users/:id`.  In source order: the self-delete guard
(`parseInt(userId) === req.user.id` → 400 "Cannot delete your own account"),
then the role guard (`req.user.role !== 'admin'` → 403), then the existence
check (404), then `DELETE FROM users WHERE id = ?` followed by a best-effort
notification to all admins. -/
def deleteUserHandler (ins : Notification → Bool) (p : Principal) (targetId : Nat)
    (db : Db) : Except HttpError String × Db :=
  if targetId = p.id then
    (.error ⟨400, "Cannot delete your own account"⟩, db)
  else if p.role ≠ Role.admin then
    (.error ⟨403, "Only admins can delete users"⟩, db)
  else
    match db.users.find? (fun u => u.id == targetId) with
    | none => (.error ⟨404, "User not found"⟩, db)
    | some _ =>
        let db' := { db with users := db.users.filter (fun u => u.id != targetId) }
        let db'' := createNotificationsForUsers ins (adminIds db') NotificationType.warning
          "Utilisateur supprimé" "Le compte a été supprimé." db'
        (.ok "User deleted successfully", db'')

/-- The `deleteUser` of the front end's AppContext: awaits the API call and
swallows any error in its own try/catch, so it never throws; its effect on the
server store is that of `deleteUserHandler` whether the call succeeded or was
denied. -/
def clientDeleteUser (ins : Notification → Bool) (p : Principal) (id : Nat) (db : Db) : Db :=
  (deleteUserHandler ins p id db).2

/-- `confirmBulkDelete`: `for (const userId of selectedUsers) await deleteUser(userId)`,
a sequential loop of independent single-user deletions. -/
def confirmBulkDelete (ins : Notification → Bool) (p : Principal) (ids : List Nat)
    (db : Db) : Db :=
  ids.foldl (fun d i => clientDeleteUser ins p i d) db

/-! ## Equipment handlers -/

/-- The raw `assigned_to` field of an equipment or ticket request body.
`absent` covers the JavaScript values `undefined`, `null`, `''` and `'stock'`
(all mapped to NULL by the handlers' normalisation); `idNum n` a value whose
`Number(...)` conversion is the id `n`; `notNum` a value whose conversion is
`NaN`. -/
inductive RefInput
  | absent
  | idNum (n : Nat)
  | notNum
deriving DecidableEq, Repr

/-- The normalisation block shared by POST and PUT `/api/equipment`:
absent-like values become NULL; `NaN` yields 400 "Invalid assignee ID format";
a numeric id must exist in the users table (else 400 "Assignee not found"). -/
def cleanAssignedTo (users : List User) : RefInput → Except HttpError (Option Nat)
  | .absent => .ok none
  | .notNum => .error ⟨400, "Invalid assignee ID format"⟩
  | .idNum n =>
      match users.find? (fun u => u.id == n) with
      | none => .error ⟨400, "Assignee not found"⟩
      | some _ => .ok (some n)

/-- An equipment request body (fields of POST/PUT `/api/equipment`). -/
structure EquipmentBody where
  name : String
  type : String
  brand : String
  model : String
  serial_number : String
  status : EquipmentStatus
  assigned_to : RefInput
  location : String
  purchase_date : String
  warranty_expiry : String
  notes : String
deriving DecidableEq, Repr

/-- `AUTO_INCREMENT` id for a new equipment row. -/
def nextEquipmentId (db : Db) : Nat := (db.equipment.map (·.id)).foldr max 0 + 1

/-- `AUTO_INCREMENT` id for a new ticket row. -/
def nextTicketId (db : Db) : Nat := (db.tickets.map (·.id)).foldr max 0 + 1

/-- POST `/api/equipment`.  Validates the required string fields
(`!name || !type || !brand || !model || !serial_number || !location`),
normalises `assigned_to`, INSERTs the row, then best-effort notifies every
admin and it_personnel user.  The handler never consults `req.user.role`. -/
def createEquipment (ins : Notification → Bool) (p : Principal) (b : EquipmentBody)
    (db : Db) : Except HttpError Equipment × Db :=
  let _ := p
  if ¬ (jsStrTruthy b.name ∧ jsStrTruthy b.type ∧ jsStrTruthy b.brand ∧
        jsStrTruthy b.model ∧ jsStrTruthy b.serial_number ∧ jsStrTruthy b.location) then
    (.error ⟨400, "Missing required fields"⟩, db)
  else
    match cleanAssignedTo db.users b.assigned_to with
    | .error e => (.error e, db)
    | .ok cleanTo =>
        let eq : Equipment :=
          ⟨nextEquipmentId db, b.name, b.type, b.brand, b.model, b.serial_number,
            b.status, cleanTo, b.location, b.purchase_date, b.warranty_expiry, b.notes⟩
        let db' := { db with equipment := db.equipment ++ [eq] }
        let db'' := createNotificationsForUsers ins (itAndAdminIds db')
          NotificationType.success "Équipement ajouté" "L'équipement a été ajouté." db'
        (.ok eq, db'')

/-- PUT `/api/equipment/:id`.  Existence check (404), duplicate-serial check
when `serial_number` is truthy (400), `assigned_to` normalisation, then an
UPDATE writing every field — `status` and `assigned_to_id` are both taken
directly from the request, independently of one another.  No role check. -/
def updateEquipment (ins : Notification → Bool) (p : Principal) (equipmentId : Nat)
    (b : EquipmentBody) (db : Db) : Except HttpError Equipment × Db :=
  let _ := p
  match db.equipment.find? (fun e => e.id == equipmentId) with
  | none => (.error ⟨404, "Equipment not found"⟩, db)
  | some _ =>
      if jsStrTruthy b.serial_number ∧
          (db.equipment.filter (fun e =>
            e.serial_number == b.serial_number && e.id != equipmentId)) ≠ [] then
        (.error ⟨400, "Serial number already exists"⟩, db)
      else
        match cleanAssignedTo db.users b.assigned_to with
        | .error e => (.error e, db)
        | .ok cleanTo =>
            let upd : Equipment → Equipment := fun e =>
              if e.id == equipmentId then
                ⟨e.id, b.name, b.type, b.brand, b.model, b.serial_number,
                  b.status, cleanTo, b.location, b.purchase_date, b.warranty_expiry,
                  b.notes⟩
              else e
            let db' := { db with equipment := db.equipment.map upd }
            let updated : Equipment :=
              ⟨equipmentId, b.name, b.type, b.brand, b.model, b.serial_number,
                b.status, cleanTo, b.location, b.purchase_date, b.warranty_expiry, b.notes⟩
            let db'' := createNotificationsForUsers ins (itAndAdminIds db')
              NotificationType.info "Équipement mis à jour" "L'équipement a été mis à jour." db'
            (.ok updated, db'')

/-- DELETE `/api/equipment/:id`.  Existence check (404), then a referential
check against tickets (400), then the DELETE and a best-effort notification.
No role check. -/
def deleteEquipment (ins : Notification → Bool) (p : Principal) (equipmentId : Nat)
    (db : Db) : Except HttpError String × Db :=
  let _ := p
  match db.equipment.find? (fun e => e.id == equipmentId) with
  | none => (.error ⟨404, "Equipment not found"⟩, db)
  | some _ =>
      if (db.tickets.filter (fun t => t.equipment_id == some equipmentId)) ≠ [] then
        (.error ⟨400, "Cannot delete equipment that is associated with tickets. Please reassign or close related tickets first."⟩, db)
      else
        let db' := { db with equipment := db.equipment.filter (fun e => e.id != equipmentId) }
        let db'' := createNotificationsForUsers ins (itAndAdminIds db')
          NotificationType.warning "Équipement supprimé" "Un équipement a été supprimé." db'
        (.ok "Equipment deleted successfully", db'')

/-- PUT `/api/equipment/:id/assign`, acting on the stored equipment row `e`
with the user roster.  When `userId` is truthy the user must exist (404); the
UPDATE then sets `assigned_to_id = userId || null` and
`status = userId ? 'En utilisation' : 'Disponible'`. -/
def assignEquipment (p : Principal) (users : List User) (e : Equipment)
    (userId : Option Nat) : Except HttpError Equipment :=
  let _ := p
  if jsTruthy userId then
    match users.find? (fun u => some u.id == userId) with
    | none => .error ⟨404, "User not found"⟩
    | some _ =>
        .ok { e with assigned_to_id := userId, status := EquipmentStatus.EnUtilisation }
  else
    .ok { e with assigned_to_id := none, status := EquipmentStatus.Disponible }

/-- PUT `/api/equipment/:id/unassign`, acting on the stored equipment row `e`:
`UPDATE equipment SET assigned_to_id = NULL, status = 'Disponible'`. -/
def unassignEquipment (p : Principal) (e : Equipment) : Except HttpError Equipment :=
  let _ := p
  .ok { e with assigned_to_id := none, status := EquipmentStatus.Disponible }

/-! ## Ticket creation and its notification routing -/

/-- The body of POST `/api/tickets` after JSON parsing.  `priority` and
`status` are ENUM columns whose values are non-empty strings, so their
JavaScript truthiness check always passes; they are modelled as already-typed
values.  `created_by` is the numeric id from the body (`0` is falsy in the
required-fields check). -/
structure TicketBody where
  title : String
  description : String
  type : String
  priority : Priority
  status : TicketStatus
  created_by : Nat
  assigned_to : RefInput
  equipment_id : RefInput
deriving DecidableEq, Repr

/-- The recipient filter of the notification block of POST `/api/tickets`:
a user qualifies when admin or it_personnel, or in the ticket's truthy
`target_department_id`, or in the ticket's truthy `department_id`; the
creator is then filtered out. -/
def ticketCreatedRecipients (t : Ticket) (allUsers : List User) : List User :=
  (allUsers.filter fun u =>
    u.role == Role.admin || u.role == Role.it_personnel
      || (jsTruthy t.target_department_id && u.department_id == t.target_department_id)
      || (jsTruthy t.department_id && u.department_id == t.department_id)).filter
    fun u => u.id != t.created_by

/-- The tail of POST `/api/tickets`: the INSERT (which does not set
`department_id` or `target_department_id`, leaving them NULL), the inline
notification loop wrapped in try/catch, and the 201 response with the
inserted row. -/
def createTicketFinish (ins : Notification → Bool) (b : TicketBody) (db : Db)
    (eid aid : Option Nat) : Except HttpError Ticket × Db :=
  let t : Ticket :=
    ⟨nextTicketId db, b.title, b.description, b.type, b.priority, b.status,
      b.created_by, aid, eid, none, none⟩
  let db' := { db with tickets := db.tickets ++ [t] }
  let recips := ticketCreatedRecipients t db'.users
  let db'' := insertNotifLoop ins db'
    (recips.map fun r =>
      ⟨r.id, NotificationType.info, "Nouveau ticket créé", "Un nouveau ticket a été créé.", false⟩)
  (.ok t, db'')

/-- The assignee existence check of POST `/api/tickets`, then
`createTicketFinish`. -/
def createTicketInsert (ins : Notification → Bool) (b : TicketBody) (db : Db)
    (eid : Option Nat) : Except HttpError Ticket × Db :=
  match b.assigned_to with
  | .idNum aid =>
      if (db.users.find? (fun u => u.id == aid)).isNone then
        (.error ⟨400, "Assignee not found"⟩, db)
      else
        createTicketFinish ins b db eid (some aid)
  | _ => createTicketFinish ins b db eid none

/-- POST `/api/tickets`.  In source order: required-fields check, security
check (`Number(created_by) !== req.user.id`), format checks on the cleaned
`equipment_id` and `assigned_to`, existence checks for creator, equipment and
assignee, then `createTicketInsert`. -/
def createTicketHandler (ins : Notification → Bool) (p : Principal) (b : TicketBody)
    (db : Db) : Except HttpError Ticket × Db :=
  if ¬ (jsStrTruthy b.title ∧ jsStrTruthy b.description ∧ jsStrTruthy b.type ∧
        b.created_by ≠ 0) then
    (.error ⟨400, "Missing required fields"⟩, db)
  else if b.created_by ≠ p.id then
    (.error ⟨400, "You can only create tickets for yourself"⟩, db)
  else if b.equipment_id = RefInput.notNum then
    (.error ⟨400, "Invalid equipment ID format"⟩, db)
  else if b.assigned_to = RefInput.notNum then
    (.error ⟨400, "Invalid assignee ID format"⟩, db)
  else if (db.users.find? (fun u => u.id == b.created_by)).isNone then
    (.error ⟨400, "User not found"⟩, db)
  else
    match b.equipment_id with
    | .idNum eid =>
        if (db.equipment.find? (fun e => e.id == eid)).isNone then
          (.error ⟨400, "Equipment not found"⟩, db)
        else
          createTicketInsert ins b db (some eid)
    | _ => createTicketInsert ins b db none

/-- Modelled from the spec (§4.2 wording, for comparison with
`ticketCreatedRecipients`): recipient iff role in \x7badmin, it_personnel\x7d, or
`target_department_id` is set and equal to the user's department, or
`department_id` is set and equal to the user's department. -/
def specTicketCreatedPred (t : Ticket) (u : User) : Bool :=
  (u.role == Role.admin || u.role == Role.it_personnel)
    || (t.target_department_id.isSome && u.department_id == t.target_department_id)
    || (t.department_id.isSome && u.department_id == t.department_id)

/-! ## Concrete inputs used by counterexamples and witnesses -/

/-- An insert oracle under which every notification INSERT succeeds. -/
def insOk : Notification → Bool := fun _ => true

/-- A ticket created by user 1 and assigned to user 2. -/
def tkt1 : Ticket :=
  ⟨10, "Ecran HS", "L'écran ne démarre plus", "Incident", Priority.Normale,
    TicketStatus.EnCours, 1, some 2, none, none, none⟩

/-- An unassigned open ticket created by user 1. -/
def tkt2 : Ticket :=
  ⟨11, "Souris", "Souris à remplacer", "Remplacement", Priority.Basse,
    TicketStatus.Ouvert, 1, none, none, none, none⟩

/-- An it_personnel user. -/
def uIt : User := ⟨2, Role.it_personnel, some 1⟩

/-- An employee user. -/
def uEmp7 : User := ⟨7, Role.employee, some 2⟩

/-- The §8 ticket-created routing instance: creator C (id 1) with
`department_id = 2`, `target_department_id = 3`. -/
def c5ticket : Ticket :=
  ⟨20, "Nouveau ticket", "desc", "Demande", Priority.Normale, TicketStatus.Ouvert,
    1, none, none, some 2, some 3⟩

/-- The §8 roster: C (1, employee, dept 2), A (2, admin), I (3, it_personnel,
dept 3), E1 (4, employee, dept 3), E2 (5, employee, dept 2), E3 (6, employee,
dept 9). -/
def c5roster : List User :=
  [⟨1, Role.employee, some 2⟩, ⟨2, Role.admin, none⟩, ⟨3, Role.it_personnel, some 3⟩,
   ⟨4, Role.employee, some 3⟩, ⟨5, Role.employee, some 2⟩, ⟨6, Role.employee, some 9⟩]

/-- A valid equipment creation body assigning nobody. -/
def eqBody1 : EquipmentBody :=
  ⟨"PC Dell", "PC", "Dell", "Optiplex", "SN-002", EquipmentStatus.Disponible,
    RefInput.absent, "Bureau 12", "", "", ""⟩

/-- An equipment update body that sets `status = 'Disponible'` while assigning
user 5: the two fields are supplied independently. -/
def eqBody2 : EquipmentBody :=
  ⟨"PC Dell", "PC", "Dell", "Optiplex", "SN-001", EquipmentStatus.Disponible,
    RefInput.idNum 5, "Bureau 12", "", "", ""⟩

/-- An equipment row, id 10, available and unassigned. -/
def eqp10 : Equipment :=
  ⟨10, "PC Dell", "PC", "Dell", "Optiplex", "SN-001", EquipmentStatus.Disponible,
    none, "Bureau 12", "", "", ""⟩

/-- A store with one admin (1) and one employee (5) and the equipment row 10. -/
def db1 : Db :=
  ⟨[⟨1, Role.admin, some 1⟩, ⟨5, Role.employee, some 2⟩], [eqp10], [], []⟩

/-- A store with four users: admin 1 and employees 2, 3, 4. -/
def db2 : Db :=
  ⟨[⟨1, Role.admin, some 1⟩, ⟨2, Role.employee, some 2⟩, ⟨3, Role.employee, some 2⟩,
    ⟨4, Role.employee, some 3⟩], [], [], []⟩

/-! ## Helper lemmas -/

/-- The notification insertion loop only touches the notifications table. -/
theorem insertNotifLoop_preserves (ins : Notification → Bool) (db : Db)
    (ns : List Notification) :
    (insertNotifLoop ins db ns).users = db.users ∧
      (insertNotifLoop ins db ns).equipment = db.equipment ∧
      (insertNotifLoop ins db ns).tickets = db.tickets := by
  induction ns generalizing db with
  | nil => exact ⟨rfl, rfl, rfl⟩
  | cons n rest ih =>
      simp only [insertNotifLoop]
      split
      · exact ih _
      · exact ⟨rfl, rfl, rfl⟩

/-- `createNotificationsForUsers` only touches the notifications table. -/
theorem createNotificationsForUsers_preserves (ins : Notification → Bool)
    (uids : List Nat) (ty : NotificationType) (ti me : String) (db : Db) :
    (createNotificationsForUsers ins uids ty ti me db).users = db.users ∧
      (createNotificationsForUsers ins uids ty ti me db).equipment = db.equipment ∧
      (createNotificationsForUsers ins uids ty ti me db).tickets = db.tickets :=
  insertNotifLoop_preserves ins db _

/-- Effect of one client-side `deleteUser` call on the users table when the
caller is an admin: a self-delete is denied and leaves the table unchanged,
any other id is removed (removing an absent id is also the identity). -/
theorem clientDeleteUser_users_admin (ins : Notification → Bool) (p : Principal)
    (i : Nat) (db : Db) (hp : p.role = Role.admin) :
    (clientDeleteUser ins p i db).users =
      if i = p.id then db.users else db.users.filter (fun u => u.id != i) := by
  simp only [clientDeleteUser, deleteUserHandler]
  split
  · simp [*]
  · next hne =>
    rw [if_neg (show ¬(p.role ≠ Role.admin) by simp [hp])]
    split
    · next hfind =>
      rw [List.find?_eq_none] at hfind
      simp only
      refine (List.filter_eq_self.mpr ?_).symm
      intro u hu
      have := hfind u hu
      simpa using this
    · next u hfind =>
      simp only
      exact (createNotificationsForUsers_preserves _ _ _ _ _ _).1

/-- JavaScript truthiness of a nullable id agrees with nullability whenever
the id is not the falsy number 0. -/
theorem jsTruthy_eq_isSome (o : Option Nat) (h : o ≠ some 0) :
    jsTruthy o = o.isSome := by
  cases o with
  | none => rfl
  | some d =>
      have hd : d ≠ 0 := fun hc => h (by rw [hc])
      simp [jsTruthy, hd]

/-- The tail of ticket creation returns the same response and tickets table
under any two insert oracles. -/
theorem createTicketFinish_oracle (ins ins' : Notification → Bool) (b : TicketBody)
    (db : Db) (eid aid : Option Nat) :
    (createTicketFinish ins b db eid aid).1 = (createTicketFinish ins' b db eid aid).1 ∧
      (createTicketFinish ins b db eid aid).2.tickets =
        (createTicketFinish ins' b db eid aid).2.tickets := by
  unfold createTicketFinish
  refine ⟨rfl, ?_⟩
  simp only
  rw [(insertNotifLoop_preserves ins _ _).2.2, (insertNotifLoop_preserves ins' _ _).2.2]

/-- `createTicketInsert` returns the same response and tickets table under any
two insert oracles. -/
theorem createTicketInsert_oracle (ins ins' : Notification → Bool) (b : TicketBody)
    (db : Db) (eid : Option Nat) :
    (createTicketInsert ins b db eid).1 = (createTicketInsert ins' b db eid).1 ∧
      (createTicketInsert ins b db eid).2.tickets =
        (createTicketInsert ins' b db eid).2.tickets := by
  unfold createTicketInsert
  split
  · split
    · exact ⟨rfl, rfl⟩
    · exact createTicketFinish_oracle ins ins' b db eid _
  · exact createTicketFinish_oracle ins ins' b db eid none

/-! ## Claim theorems -/

/-- C1 (code bug): evaluating the close handler at the failing input — the
it_personnel user 2 is the stored assignee of `tkt1` (neither its creator nor
an admin), yet closing is denied with 403, because the handler's SELECT omits
the `assigned_to` column and the guard compares `undefined` with the caller's
id; the creator and an admin do succeed. -/
theorem c1_assignee_close_denied :
    closeTicket ⟨2, Role.it_personnel⟩ tkt1 =
        .error ⟨403, "You can only close tickets you created or are assigned to"⟩ ∧
      closeTicket ⟨1, Role.employee⟩ tkt1 =
        .ok { tkt1 with status := TicketStatus.Ferme } ∧
      closeTicket ⟨9, Role.admin⟩ tkt1 =
        .ok { tkt1 with status := TicketStatus.Ferme } ∧
      tkt1.assigned_to = some 2 :=
  ⟨rfl, rfl, rfl, rfl⟩

/-- C4 counterexample: the generic equipment update sets `status` and
`assigned_to_id` independently from the request — updating equipment 10 with
status 'Disponible' and assignee 5 succeeds and yields a record assigned to
user 5 whose status is Disponible, not 'En utilisation'. -/
theorem c4_generic_update_breaks_lockstep :
    (updateEquipment insOk ⟨1, Role.admin⟩ 10 eqBody2 db1).1 =
        .ok ⟨10, "PC Dell", "PC", "Dell", "Optiplex", "SN-001",
          EquipmentStatus.Disponible, some 5, "Bureau 12", "", "", ""⟩ ∧
      EquipmentStatus.Disponible ≠ EquipmentStatus.EnUtilisation :=
  ⟨rfl, by decide⟩

/-- C4 amended: the dedicated assign and unassign operations do keep equipment
status and assignment in lockstep for every prior status — a (valid) non-null
assignee yields 'En utilisation', a null one yields 'Disponible', and
unassigning yields 'Disponible' — but the generic update operation takes both
fields from the request independently of one another. -/
theorem c4_assign_unassign_lockstep :
    (∀ (p : Principal) (users : List User) (e : Equipment) (uid : Option Nat)
        (e' : Equipment),
      (∀ n, uid = some n → 0 < n) →
      assignEquipment p users e uid = .ok e' →
      (uid ≠ none → e'.status = EquipmentStatus.EnUtilisation ∧ e'.assigned_to_id = uid) ∧
        (uid = none → e'.status = EquipmentStatus.Disponible ∧ e'.assigned_to_id = none)) ∧
      (∀ (p : Principal) (e : Equipment),
        unassignEquipment p e =
          .ok { e with assigned_to_id := none, status := EquipmentStatus.Disponible }) := by
  constructor
  · intro p users e uid e' hpos h
    cases uid with
    | none =>
        simp only [assignEquipment, jsTruthy, Bool.false_eq_true, if_false,
          Except.ok.injEq] at h
        subst h
        exact ⟨fun hc => absurd rfl hc, fun _ => ⟨rfl, rfl⟩⟩
    | some n =>
        have hn : (n != 0) = true := by
          simpa using Nat.pos_iff_ne_zero.mp (hpos n rfl)
        simp only [assignEquipment, jsTruthy, hn, if_true] at h
        split at h
        · exact Except.noConfusion h
        · simp only [Except.ok.injEq] at h
          subst h
          exact ⟨fun _ => ⟨rfl, rfl⟩, fun hc => Option.noConfusion hc⟩
  · intro p e
    rfl

/-- C4 witness: the theorem applied to an admin assigning user 5 to the
available equipment 10. -/
theorem c4_assign_unassign_lockstep_witness :
    ({ eqp10 with
        assigned_to_id := some 5
        status := EquipmentStatus.EnUtilisation } : Equipment).status
        = EquipmentStatus.EnUtilisation ∧
      ({ eqp10 with
          assigned_to_id := some 5
          status := EquipmentStatus.EnUtilisation } : Equipment).assigned_to_id
        = some 5 :=
  (c4_assign_unassign_lockstep.1 ⟨1, Role.admin⟩ db1.users eqp10 (some 5) _
      (by intro n h; cases h; decide) rfl).1 (by simp)

/-- C5: the ticket-created recipient computation equals the spec's routing
predicate minus the creator (whenever the nullable department references are
not the JavaScript-falsy id 0); it yields each user at most once; and on the
§8 roster (creator 1, A=2 admin, I=3 it dept 3, E1=4 dept 3, E2=5 dept 2,
E3=6 dept 9) it selects exactly ids 2, 3, 4, 5. -/
theorem c5_ticket_created_routing :
    (∀ (t : Ticket) (users : List User),
        t.target_department_id ≠ some 0 → t.department_id ≠ some 0 →
        ticketCreatedRecipients t users =
          users.filter fun u => specTicketCreatedPred t u && u.id != t.created_by) ∧
      (∀ (t : Ticket) (users : List User),
        (users.map User.id).Nodup →
        ((ticketCreatedRecipients t users).map User.id).Nodup) ∧
      (ticketCreatedRecipients c5ticket c5roster).map User.id = [2, 3, 4, 5] := by
  refine ⟨?_, ?_, by decide⟩
  · intro t users htd hd
    unfold ticketCreatedRecipients
    rw [List.filter_filter]
    refine List.filter_congr ?_
    intro u _
    simp only [specTicketCreatedPred]
    rw [jsTruthy_eq_isSome _ htd, jsTruthy_eq_isSome _ hd, Bool.and_comm]
  · intro t users h
    have hsub : (ticketCreatedRecipients t users).Sublist users :=
      (List.filter_sublist _).trans (List.filter_sublist _)
    exact List.Nodup.sublist (hsub.map User.id) h

/-- C5 witness: the theorem applied to the §8 ticket and roster. -/
theorem c5_ticket_created_routing_witness :
    ticketCreatedRecipients c5ticket c5roster =
      c5roster.filter fun u =>
        specTicketCreatedPred c5ticket u && u.id != c5ticket.created_by :=
  c5_ticket_created_routing.1 c5ticket c5roster (by decide) (by decide)

/-- C8: for an admin caller the bulk delete is a sequential loop of
independently authorized deletions: its net effect on the users table is the
pointwise filter that keeps the caller's own row (the denied self-delete) and
removes every other selected id — deletions performed before a denial are
kept, deletions after it still happen. -/
theorem c8_bulk_delete_independent :
    ∀ (ins : Notification → Bool) (p : Principal) (ids : List Nat) (db : Db),
      p.role = Role.admin →
      (confirmBulkDelete ins p ids db).users =
        db.users.filter fun u => u.id == p.id || !(ids.contains u.id) := by
  intro ins p ids db hp
  induction ids generalizing db with
  | nil =>
      simp only [confirmBulkDelete, List.foldl_nil]
      refine (List.filter_eq_self.mpr ?_).symm
      intro u _
      simp
  | cons i rest ih =>
      simp only [confirmBulkDelete, List.foldl_cons] at ih ⊢
      rw [ih (clientDeleteUser ins p i db),
        clientDeleteUser_users_admin ins p i db hp]
      by_cases hip : i = p.id
      · rw [if_pos hip]
        refine List.filter_congr ?_
        intro u _
        by_cases hu : u.id = i
        · simp [List.contains_cons, hu, hip]
        · simp [List.contains_cons, hu]
      · rw [if_neg hip, List.filter_filter]
        refine List.filter_congr ?_
        intro u _
        by_cases hu : u.id = i
        · simp [List.contains_cons, hu, hip]
        · simp [List.contains_cons, hu]

/-- C8 witness: the theorem applied to admin 1 bulk-deleting ids [2, 1, 3] in
`db2`: user 2 (deleted before the denied self-delete of 1) stays deleted, user
3 (after the denial) is deleted too, user 4 survives. -/
theorem c8_bulk_delete_independent_witness :
    (confirmBulkDelete insOk ⟨1, Role.admin⟩ [2, 1, 3] db2).users =
      [⟨1, Role.admin, some 1⟩, ⟨4, Role.employee, some 3⟩] :=
  (c8_bulk_delete_independent insOk ⟨1, Role.admin⟩ [2, 1, 3] db2 rfl).trans (by decide)

/-- C9: notification persistence is best-effort — `createNotificationsForUsers`
never raises and touches only the notifications table, and the ticket-creation
handler returns the same response and tickets table under an arbitrary insert
oracle as under fully successful persistence. -/
theorem c9_notifications_best_effort :
    (∀ (ins : Notification → Bool) (uids : List Nat) (ty : NotificationType)
        (ti me : String) (db : Db),
        (createNotificationsForUsers ins uids ty ti me db).users = db.users ∧
          (createNotificationsForUsers ins uids ty ti me db).equipment = db.equipment ∧
          (createNotificationsForUsers ins uids ty ti me db).tickets = db.tickets) ∧
      ∀ (ins : Notification → Bool) (p : Principal) (b : TicketBody) (db : Db),
        (createTicketHandler ins p b db).1 = (createTicketHandler insOk p b db).1 ∧
          (createTicketHandler ins p b db).2.tickets =
            (createTicketHandler insOk p b db).2.tickets := by
  refine ⟨createNotificationsForUsers_preserves, ?_⟩
  intro ins p b db
  unfold createTicketHandler
  split
  · exact ⟨rfl, rfl⟩
  · split
    · exact ⟨rfl, rfl⟩
    · split
      · exact ⟨rfl, rfl⟩
      · split
        · exact ⟨rfl, rfl⟩
        · split
          · exact ⟨rfl, rfl⟩
          · split
            · split
              · exact ⟨rfl, rfl⟩
              · exact createTicketInsert_oracle ins insOk b db _
            · exact createTicketInsert_oracle ins insOk b db none

/-- C6: the escalation step is the pure saturating map Basse→Normale,
Normale→Haute, Haute→Urgente, Urgente→Urgente; four escalations from Basse
reach Urgente, one from Urgente stays Urgente; and every successful escalation
forces the ticket's status to Escaladé. -/
theorem c6_escalation_step :
    escalate Priority.Basse = Priority.Normale ∧
      escalate Priority.Normale = Priority.Haute ∧
      escalate Priority.Haute = Priority.Urgente ∧
      escalate Priority.Urgente = Priority.Urgente ∧
      escalate (escalate (escalate (escalate Priority.Basse))) = Priority.Urgente ∧
      ∀ (p : Principal) (t t' : Ticket), escalateTicket p t = .ok t' →
        t'.status = TicketStatus.Escalade := by
  refine ⟨rfl, rfl, rfl, rfl, rfl, ?_⟩
  intro p t t' h
  simp only [escalateTicket] at h
  split at h
  · exact Except.noConfusion h
  · simp only [Except.ok.injEq] at h
    subst h
    rfl

/-- C6 witness: the theorem applied to an admin escalating the Basse-priority
ticket `tkt2`. -/
theorem c6_escalation_step_witness :
    ({ tkt2 with
        priority := escalate tkt2.priority
        status := TicketStatus.Escalade } : Ticket).status = TicketStatus.Escalade :=
  c6_escalation_step.2.2.2.2.2 ⟨1, Role.admin⟩ tkt2 _ rfl

/-- C10: the assign-ticket operation couples the ticket's status to the
assignment — assigning a (valid) non-null user sets status 'En cours' and
assigning null sets status 'Ouvert', for every prior ticket state. -/
theorem c10_assign_couples_status :
    ∀ (p : Principal) (users : List User) (t : Ticket) (uid : Option Nat) (t' : Ticket),
      (∀ n, uid = some n → 0 < n) →
      assignTicket p users t uid = .ok t' →
      (uid ≠ none → t'.status = TicketStatus.EnCours ∧ t'.assigned_to = uid) ∧
        (uid = none → t'.status = TicketStatus.Ouvert ∧ t'.assigned_to = none) := by
  intro p users t uid t' hpos h
  cases uid with
  | none =>
      simp only [assignTicket, jsTruthy, Bool.false_eq_true, if_false,
        Except.ok.injEq] at h
      subst h
      exact ⟨fun hc => absurd rfl hc, fun _ => ⟨rfl, rfl⟩⟩
  | some n =>
      have hn : (n != 0) = true := by
        simpa using Nat.pos_iff_ne_zero.mp (hpos n rfl)
      simp only [assignTicket, jsTruthy, hn, if_true] at h
      split at h
      · exact Except.noConfusion h
      · split at h
        · exact Except.noConfusion h
        · simp only [Except.ok.injEq] at h
          subst h
          exact ⟨fun _ => ⟨rfl, rfl⟩, fun hc => Option.noConfusion hc⟩

/-- C10 witness: the theorem applied to an admin assigning user 2 (an
it_personnel) to the open ticket `tkt2`. -/
theorem c10_assign_couples_status_witness :
    ({ tkt2 with assigned_to := some 2, status := TicketStatus.EnCours } : Ticket).status
        = TicketStatus.EnCours ∧
      ({ tkt2 with assigned_to := some 2, status := TicketStatus.EnCours } : Ticket).assigned_to
        = some 2 :=
  (c10_assign_couples_status ⟨3, Role.admin⟩ [uIt] tkt2 (some 2) _
      (by intro n h; cases h; decide) rfl).1 (by simp)

/-- C2 counterexample: an employee principal successfully assigns a ticket to
an it_personnel user — the assign handler never consults the invoking
principal's role, so `canAssignTicket(p, any) = false` fails for employees. -/
theorem c2_employee_assign_succeeds :
    assignTicket ⟨5, Role.employee⟩ [uIt] tkt2 (some 2) =
      .ok { tkt2 with assigned_to := some 2, status := TicketStatus.EnCours } := rfl

/-- C2 amended: employee principals are denied escalation; the assign-ticket
operation ignores the invoking principal entirely (its outcome is the same for
any two principals), and its only role rule is that the target user must not
be an employee. -/
theorem c2_amended_assign_escalate :
    (∀ (p : Principal) (t : Ticket), p.role = Role.employee →
        escalateTicket p t = .error ⟨403, "Employees cannot escalate tickets"⟩) ∧
      (∀ (p q : Principal) (users : List User) (t : Ticket) (uid : Option Nat),
        assignTicket p users t uid = assignTicket q users t uid) ∧
      (∀ (p : Principal) (users : List User) (t : Ticket) (uid : Option Nat) (u : User),
        jsTruthy uid = true →
        users.find? (fun x => some x.id == uid) = some u →
        u.role = Role.employee →
        assignTicket p users t uid =
          .error ⟨403, "Employees cannot be assigned to tickets"⟩) := by
  refine ⟨?_, ?_, ?_⟩
  · intro p t hp
    simp [escalateTicket, hp]
  · intro p q users t uid
    rfl
  · intro p users t uid u htr hfind hrole
    simp [assignTicket, htr, hfind, hrole]

/-- C2 witness: the theorem applied to the employee principal 7, denying its
escalation of `tkt2` and its assignment of `tkt2` to the employee user 7. -/
theorem c2_amended_assign_escalate_witness :
    escalateTicket ⟨7, Role.employee⟩ tkt2 =
        .error ⟨403, "Employees cannot escalate tickets"⟩ ∧
      assignTicket ⟨7, Role.employee⟩ [uEmp7] tkt2 (some 7) =
        .error ⟨403, "Employees cannot be assigned to tickets"⟩ :=
  ⟨c2_amended_assign_escalate.1 ⟨7, Role.employee⟩ tkt2 rfl,
    c2_amended_assign_escalate.2.2 ⟨7, Role.employee⟩ [uEmp7] tkt2 (some 7) uEmp7
      rfl rfl rfl⟩

/-- C3 counterexample: an employee principal creates equipment; the request
succeeds and the equipment store grows, refuting the claimed denial. -/
theorem c3_employee_create_succeeds :
    (createEquipment insOk ⟨5, Role.employee⟩ eqBody1 db1).1 =
        .ok ⟨11, "PC Dell", "PC", "Dell", "Optiplex", "SN-002",
          EquipmentStatus.Disponible, none, "Bureau 12", "", "", ""⟩ ∧
      (createEquipment insOk ⟨5, Role.employee⟩ eqBody1 db1).2.equipment =
        db1.equipment ++
          [⟨11, "PC Dell", "PC", "Dell", "Optiplex", "SN-002",
            EquipmentStatus.Disponible, none, "Bureau 12", "", "", ""⟩] :=
  ⟨rfl, rfl⟩

/-- C3 amended: the equipment create, update and delete handlers perform no
check on the invoking principal — their outcome is identical for any two
authenticated principals, so no role is denied. -/
theorem c3_amended_no_role_gate :
    (∀ (ins : Notification → Bool) (p q : Principal) (b : EquipmentBody) (db : Db),
        createEquipment ins p b db = createEquipment ins q b db) ∧
      (∀ (ins : Notification → Bool) (p q : Principal) (eqid : Nat) (b : EquipmentBody)
          (db : Db), updateEquipment ins p eqid b db = updateEquipment ins q eqid b db) ∧
      (∀ (ins : Notification → Bool) (p q : Principal) (eqid : Nat) (db : Db),
        deleteEquipment ins p eqid db = deleteEquipment ins q eqid db) :=
  ⟨fun _ _ _ _ _ => rfl, fun _ _ _ _ _ _ => rfl, fun _ _ _ _ _ => rfl⟩

/-- C7 counterexample: an admin deleting their own account is denied with HTTP
status 400 and the dedicated message — not the 403 status that this API uses
for its authorization (Forbidden) denials. -/
theorem c7_self_delete_status_400 :
    deleteUserHandler insOk ⟨1, Role.admin⟩ 1 db2 =
        (.error ⟨400, "Cannot delete your own account"⟩, db2) ∧
      (400 : Nat) ≠ 403 :=
  ⟨rfl, by decide⟩

/-- C7 amended: a self-delete is denied for every principal regardless of
role, the store is unchanged, and the response is the dedicated
"Cannot delete your own account" error with HTTP status 400 (the handler's
other, role-based denial uses 403). -/
theorem c7_amended_self_delete :
    ∀ (ins : Notification → Bool) (p : Principal) (db : Db),
      deleteUserHandler ins p p.id db =
        (.error ⟨400, "Cannot delete your own account"⟩, db) := by
  intro ins p db
  simp [deleteUserHandler]

end Parc
